import Mathlib

/-!
Verification of the query-normalization and SQL-synthesis pipeline of the
community-search API (source files `fuzzy_matching.py` and
`trial_text2sql.py`).

Strings are modelled as lists of characters (`Str`), Python lists as Lean
lists, and Python dicts as association lists.  External collaborators (the
vocabulary store, the fuzzywuzzy scorer, the LLM generation capability, the
SQL validator and executor) are parameters of the embedded functions.
CPython's `list(set(xs))` returns the distinct elements of `xs` in an
unspecified, hash-seed-dependent order; it is therefore modelled by an
arbitrary function `pset` constrained by `PySetOK` (result duplicate-free,
with exactly the members of the input), and theorems quantify over every
admissible `pset`.
-/

abbrev Str := List Char

/-- Python `s.lower()` (basic-latin case mapping, which covers the data used
here). -/
def toLowerS (s : Str) : Str := s.map Char.toLower

/-- Python `s.upper()`. -/
def toUpperS (s : Str) : Str := s.map Char.toUpper

/-- Python `s.strip()`: remove leading and trailing whitespace. -/
def pyStrip (s : Str) : Str :=
  ((s.dropWhile Char.isWhitespace).reverse.dropWhile Char.isWhitespace).reverse

/-- Does `pat` occur at the start of `s`?  Helper for substring search and
for `str.replace`. -/
def startsWith : Str → Str → Bool
  | [], _ => true
  | _ :: _, [] => false
  | p :: ps, c :: cs => p == c && startsWith ps cs

/-- Python `pat in s`: substring containment. -/
def containsSub (pat : Str) : Str → Bool
  | [] => startsWith pat []
  | c :: rest => startsWith pat (c :: rest) || containsSub pat rest

/-- Fuel-indexed scan of Python `s.replace(pat, repl)`: left to right,
replacing non-overlapping occurrences.  `fuel` bounds the scan (callers pass
`s.length`); `pat` is non-empty at both call sites in the source. -/
def pyReplaceGo (pat repl : Str) : Nat → Str → Str
  | 0, s => s
  | _ + 1, [] => []
  | fuel + 1, c :: rest =>
    if startsWith pat (c :: rest) && !pat.isEmpty then
      repl ++ pyReplaceGo pat repl fuel ((c :: rest).drop pat.length)
    else
      c :: pyReplaceGo pat repl fuel rest

/-- Python `s.replace(pat, repl)` for non-empty `pat`. -/
def pyReplace (s pat repl : Str) : Str := pyReplaceGo pat repl s.length s

/-- The post-processing `Text2SQLEngine.generate_sql` applies to the raw LLM
response: `sql = response.text.strip()`, then
`sql.replace("```sql", "").replace("```", "").strip()`. -/
def cleanSql (s : Str) : Str :=
  pyStrip (pyReplace (pyReplace (pyStrip s) ("```sql".toList) []) ("```".toList) [])

/-- Negation of the shape check `"SELECT" not in sql.upper()`:
case-insensitive SELECT containment. -/
def containsSelect (sql : Str) : Bool := containsSub ("SELECT".toList) (toUpperS sql)

/-- `MAX_RETRIES` from `trial_text2sql.py`. -/
def MAX_RETRIES : Nat := 3

/-- Outcome of one call of the external generation capability
(`self.model.generate_content(prompt)`): the call either raises or returns
response text.  The prompt is the same on every attempt, so the oracle is
indexed only by the attempt number. -/
inductive GenOutcome where
  | raises : GenOutcome
  | returns : Str → GenOutcome
deriving DecidableEq

/-- `Text2SQLEngine.generate_sql` with the generation capability modelled as
the attempt-indexed oracle `gen`; the second component counts generation
calls made.  The recursion is structured on the remaining retry budget
`rem = MAX_RETRIES - retry_count`, which makes the source's guard
`retry_count >= MAX_RETRIES` the `rem = 0` case. -/
def generate_sqlGo (gen : Nat → GenOutcome) : Nat → Nat → Option Str × Nat
  | _, 0 => (none, 0)
  | retry_count, rem + 1 =>
    match gen retry_count with
    | .raises =>
      let r := generate_sqlGo gen (retry_count + 1) rem
      (r.1, r.2 + 1)
    | .returns t =>
      let sql := cleanSql t
      if sql = [] ∨ sql.length < 10 then
        let r := generate_sqlGo gen (retry_count + 1) rem
        (r.1, r.2 + 1)
      else if containsSelect sql = false then
        let r := generate_sqlGo gen (retry_count + 1) rem
        (r.1, r.2 + 1)
      else (some sql, 1)

/-- `generate_sql` together with its total attempt count. -/
def generate_sqlR (gen : Nat → GenOutcome) (retry_count : Nat) : Option Str × Nat :=
  generate_sqlGo gen retry_count (MAX_RETRIES - retry_count)

/-- `Text2SQLEngine.generate_sql`: the returned SQL text, `none` = Failure. -/
def generate_sql (gen : Nat → GenOutcome) (retry_count : Nat) : Option Str :=
  (generate_sqlR gen retry_count).1

/-- `INSTITUTE_ABBREVIATIONS` from `fuzzy_matching.py`, in source order. -/
def INSTITUTE_ABBREVIATIONS : List (Str × Str) :=
  [ ("iit b".toList, "Indian Institute of Technology, Bombay".toList)
  , ("iit bombay".toList, "Indian Institute of Technology, Bombay".toList)
  , ("iit d".toList, "Indian Institute of Technology, Delhi".toList)
  , ("iit delhi".toList, "Indian Institute of Technology, Delhi".toList)
  , ("iit k".toList, "Indian Institute of Technology, Kharagpur".toList)
  , ("iit kharagpur".toList, "Indian Institute of Technology, Kharagpur".toList)
  , ("iit m".toList, "Indian Institute of Technology, Madras".toList)
  , ("iit madras".toList, "Indian Institute of Technology, Madras".toList)
  , ("iit g".toList, "Indian Institute of Technology, Guwahati".toList)
  , ("iit guwahati".toList, "Indian Institute of Technology, Guwahati".toList)
  , ("iit r".toList, "Indian Institute of Technology, Roorkee".toList)
  , ("iit roorkee".toList, "Indian Institute of Technology, Roorkee".toList)
  , ("iit kgp".toList, "Indian Institute of Technology, Kharagpur".toList)
  , ("iit kanpur".toList, "Indian Institute of Technology, Kanpur".toList)
  , ("iit bhu".toList, "Indian Institute of Technology, Varanasi".toList)
  , ("iim a".toList, "Indian Institute of Management, Ahmedabad".toList)
  , ("iim ahmedabad".toList, "Indian Institute of Management, Ahmedabad".toList)
  , ("iim b".toList, "Indian Institute of Management, Bangalore".toList)
  , ("iim bangalore".toList, "Indian Institute of Management, Bangalore".toList)
  , ("iim c".toList, "Indian Institute of Management, Calcutta".toList)
  , ("iim calcutta".toList, "Indian Institute of Management, Calcutta".toList)
  , ("iim l".toList, "Indian Institute of Management, Lucknow".toList)
  , ("iim lucknow".toList, "Indian Institute of Management, Lucknow".toList)
  , ("mit".toList, "Massachusetts Institute of Technology".toList)
  , ("stanford".toList, "Stanford University".toList)
  , ("harvard".toList, "Harvard University".toList)
  , ("oxford".toList, "University of Oxford".toList)
  , ("cambridge".toList, "University of Cambridge".toList)
  , ("berkeley".toList, "University of California, Berkeley".toList)
  , ("caltech".toList, "California Institute of Technology".toList)
  , ("bits".toList, "Birla Institute of Technology and Science".toList)
  , ("bits pilani".toList, "Birla Institute of Technology and Science, Pilani".toList)
  , ("iiit".toList, "International Institute of Information Technology".toList)
  , ("nit".toList, "National Institute of Technology".toList) ]

/-- Python regex `\w` on the ASCII data used here. -/
def isWordChar (c : Char) : Bool := c.isAlphanum || c == '_'

/-- First two characters of a year token: `19` or `20`. -/
def yearHead (c1 c2 : Char) : Bool := (c1 == '1' && c2 == '9') || (c1 == '2' && c2 == '0')

/-- Word boundary after a match: end of text or a non-word character. -/
def boundaryAfter : Str → Bool
  | [] => true
  | c :: _ => !isWordChar c

/-- The scan of `re.findall(r'\b(19\d{2}|20\d{2})\b', query)`: left to right,
non-overlapping, order-preserving; `prev` records whether the character just
before the current position is a word character (the `\b` before the match
holds iff `!prev`, since the first matched character is a digit). -/
def findYears (prev : Bool) : Str → List Str
  | c1 :: c2 :: c3 :: c4 :: rest =>
    if !prev && yearHead c1 c2 && c3.isDigit && c4.isDigit && boundaryAfter rest then
      [c1, c2, c3, c4] :: findYears true rest
    else
      findYears (isWordChar c1) (c2 :: c3 :: c4 :: rest)
  | _ => []

/-- Python `int(y)` on a digit string. -/
def strToNat (s : Str) : Nat := s.foldl (fun n c => 10 * n + (c.toNat - 48)) 0

/-- Python `str(year)`. -/
def natStr (n : Nat) : Str := Nat.toDigits 10 n

/-- Vocabulary rows read by `EntityExtractor._get_db_context` (distinct
non-null values per column).  The database is an external collaborator, so
the fetch outcome is a parameter: `none` models the `except` branch (any
database error), which returns `{}` — read back as all-empty lists via
`.get(key, [])`. -/
structure DbContext where
  companies : List Str
  roles : List Str
  cities : List Str
  states : List Str
  countries : List Str
  institutes : List Str
  degrees : List Str
  domains : List Str
deriving DecidableEq

def emptyContext : DbContext := ⟨[], [], [], [], [], [], [], []⟩

/-- `EntityExtractor._get_db_context`, `fetch` being the outcome of the
database calls. -/
def getDbContext (fetch : Option DbContext) : DbContext := fetch.getD emptyContext

/-- Admissibility of a model `pset` of CPython `list(set(xs))` on string
lists: duplicate-free result with exactly the members of the input.  CPython
guarantees nothing about the order (it depends on the hash seed). -/
def PySetOK (pset : List Str → List Str) : Prop :=
  ∀ xs : List Str, (pset xs).Nodup ∧ ∀ a : Str, a ∈ pset xs ↔ a ∈ xs

/-- One admissible `list(set ...)` model (distinct elements, keeping the last
occurrence of each). -/
def psetDedup (xs : List Str) : List Str := xs.dedup

/-- Another admissible `list(set ...)` model (reversed order); used to show
that order-dependent claims do not hold for every admissible set order. -/
def psetRev (xs : List Str) : List Str := xs.dedup.reverse

/-- `ExtractedEntities`: the dictionary built by
`EntityExtractor.extract_entities`. -/
structure Extracted where
  companies : List Str
  roles : List Str
  cities : List Str
  states : List Str
  countries : List Str
  institutes : List Str
  degrees : List Str
  domains : List Str
  years : List Nat
deriving DecidableEq

/-- One category loop of `EntityExtractor.extract_entities`: keep the
vocabulary values that are truthy and whose lower-cased form is a substring
of the lower-cased query. -/
def pickVocab (ql : Str) (vals : List Str) : List Str :=
  vals.filter (fun v => !v.isEmpty && containsSub (toLowerS v) ql)

/-- `EntityExtractor.extract_entities`: substring matching of vocabulary
values per category, abbreviation keys additionally for institutes, the year
regex scan, then `list(set(...))` deduplication of every category except
years. -/
def extract_entities (pset : List Str → List Str) (fetch : Option DbContext)
    (query : Str) : Extracted :=
  let query_lower := toLowerS query
  let ctx := getDbContext fetch
  { companies := pset (pickVocab query_lower ctx.companies)
    roles := pset (pickVocab query_lower ctx.roles)
    cities := pset (pickVocab query_lower ctx.cities)
    states := pset (pickVocab query_lower ctx.states)
    countries := pset (pickVocab query_lower ctx.countries)
    institutes := pset (((INSTITUTE_ABBREVIATIONS.map Prod.fst).filter
        (fun a => containsSub a query_lower)) ++ pickVocab query_lower ctx.institutes)
    degrees := pset (pickVocab query_lower ctx.degrees)
    domains := pset (pickVocab query_lower ctx.domains)
    years := (findYears false query).map strToNat }

/-- `SIMILARITY_THRESHOLD` from `fuzzy_matching.py`, the default threshold
every `FuzzyMatcher` in the repository runs with. -/
def SIMILARITY_THRESHOLD : Nat := 75

/-- The dictionary `db_values_lower = {v.lower(): v for v in db_values}`
read with `.get(key, dflt)`: later entries overwrite earlier ones, so the
last occurrence of a lower-cased form wins. -/
def dictGetLast (db : List Str) (key : Str) (dflt : Str) : Str :=
  match db.reverse.find? (fun v => toLowerS v == key) with
  | some v => v
  | none => dflt

/-- Scorer type.  fuzzywuzzy's `process.extract`Scoring (full-process
preprocessing composed with `fuzz.token_set_ratio`, a 0-100 token-set
similarity) is external library code and enters the model as a parameter. -/
abbrev Scorer := Str → Str → Nat

/-- `FuzzyMatcher.match_entity`.  `process.extract(..., limit=10)` is
`heapq.nlargest(10, ...)` over the scored choices, i.e. a stable descending
sort by score truncated to the first 10 entries. -/
def match_entity (pset : List Str → List Str) (scorer : Scorer)
    (user_input : Str) (db_values : List Str) : List Str :=
  if user_input = [] ∨ db_values = [] then []
  else
    let dbv := db_values.filter (fun v => !v.isEmpty)
    if dbv = [] then []
    else
      let scored := (dbv.map toLowerS).map (fun c => (c, scorer (toLowerS user_input) c))
      let top := (List.insertionSort (fun p q : Str × Nat => q.2 ≤ p.2) scored).take 10
      pset ((top.filter (fun p => SIMILARITY_THRESHOLD ≤ p.2)).map
        (fun p => dictGetLast dbv (toLowerS p.1) p.1))

/-- Python dict assignment `result[k] = v` on an association list: overwrite
in place if the key exists, append otherwise. -/
def upsert (m : List (Str × List Str)) (k : Str) (v : List Str) : List (Str × List Str) :=
  if (m.lookup k).isSome then m.map (fun p => if p.1 = k then (k, v) else p)
  else m ++ [(k, v)]

/-- `FuzzyMatcher.normalize_institutes` over the institute vocabulary `db`:
abbreviation lookup first (then the candidate list is only the mapped value),
fuzzy matching against the vocabulary otherwise (then the candidate list is
`[institute] + fuzzy_matches`); both go through `list(set(...))`; inputs with
no candidates are omitted. -/
def normalize_institutes (pset : List Str → List Str) (scorer : Scorer)
    (db : List Str) (inputs : List Str) : List (Str × List Str) :=
  inputs.foldl (fun result inst =>
    match INSTITUTE_ABBREVIATIONS.lookup (toLowerS inst) with
    | some mapped => upsert result inst (pset [mapped])
    | none =>
      let fm := match_entity pset scorer inst db
      if fm = [] then result else upsert result inst (pset (inst :: fm))) []

/-- Common body of the seven non-institute normalizers
(`normalize_companies/roles/cities/states/countries/domains/degrees`, which
are textually identical in the source up to the vocabulary column): the
candidate list is `[input] + fuzzy_matches`, with no `set()` applied to the
combination; inputs with no fuzzy match are omitted. -/
def normalize_fuzzy (pset : List Str → List Str) (scorer : Scorer)
    (db : List Str) (inputs : List Str) : List (Str × List Str) :=
  inputs.foldl (fun result c =>
    let fm := match_entity pset scorer c db
    if fm = [] then result else upsert result c (c :: fm)) []

/-- `FuzzyMatcher.normalize_companies`. -/
def normalize_companies (pset : List Str → List Str) (scorer : Scorer)
    (db : List Str) (inputs : List Str) : List (Str × List Str) :=
  normalize_fuzzy pset scorer db inputs

/-- `NormalizationMap` per category: the dictionary built by
`FuzzyMatcher.normalize_all`, where a key is present (`some`) iff the
corresponding extracted list was truthy. -/
structure Normalized where
  companies : Option (List (Str × List Str))
  roles : Option (List (Str × List Str))
  cities : Option (List (Str × List Str))
  states : Option (List (Str × List Str))
  countries : Option (List (Str × List Str))
  institutes : Option (List (Str × List Str))
  degrees : Option (List (Str × List Str))
  domains : Option (List (Str × List Str))
  years : Option (List (Str × List Str))
deriving DecidableEq

/-- `FuzzyMatcher.normalize_all`.  Years map to their own string form
(`{str(year): [str(year)]}`, a dict comprehension, so duplicate years collapse
into one key). -/
def normalize_all (pset : List Str → List Str) (scorer : Scorer)
    (fetch : Option DbContext) (e : Extracted) : Normalized :=
  let ctx := getDbContext fetch
  { companies := if e.companies ≠ [] then some (normalize_companies pset scorer ctx.companies e.companies) else none
    roles := if e.roles ≠ [] then some (normalize_fuzzy pset scorer ctx.roles e.roles) else none
    cities := if e.cities ≠ [] then some (normalize_fuzzy pset scorer ctx.cities e.cities) else none
    states := if e.states ≠ [] then some (normalize_fuzzy pset scorer ctx.states e.states) else none
    countries := if e.countries ≠ [] then some (normalize_fuzzy pset scorer ctx.countries e.countries) else none
    institutes := if e.institutes ≠ [] then some (normalize_institutes pset scorer ctx.institutes e.institutes) else none
    degrees := if e.degrees ≠ [] then some (normalize_fuzzy pset scorer ctx.degrees e.degrees) else none
    domains := if e.domains ≠ [] then some (normalize_fuzzy pset scorer ctx.domains e.domains) else none
    years := if e.years ≠ [] then
        some (e.years.foldl (fun m y => upsert m (natStr y) [natStr y]) [])
      else none }

/-- One `"<Category>: <original> → <candidates>"` group of
`QueryNormalizer._build_hints`, skipped when the key is absent or its dict is
empty (falsy). -/
def catHints (title : Str) (o : Option (List (Str × List Str))) : List Str :=
  match o with
  | none => []
  | some m =>
    if m = [] then []
    else m.map (fun p =>
      title ++ (": ".toList) ++ p.1 ++ (" → ".toList) ++ List.intercalate (", ".toList) p.2)

/-- `QueryNormalizer._build_hints`: iterates only the eight string categories
of `entity_types` (years is absent from that list); the Python signature also
receives the extracted entities but never reads them. -/
def build_hints (_extracted : Extracted) (normalized : Normalized) : Str :=
  let hints :=
    catHints ("Companies".toList) normalized.companies ++
    catHints ("Roles".toList) normalized.roles ++
    catHints ("Cities".toList) normalized.cities ++
    catHints ("States".toList) normalized.states ++
    catHints ("Countries".toList) normalized.countries ++
    catHints ("Institutes".toList) normalized.institutes ++
    catHints ("Degrees".toList) normalized.degrees ++
    catHints ("Domains".toList) normalized.domains
  if hints = [] then ("No entities found".toList)
  else List.intercalate (" | ".toList) hints

/-- Result of `QueryNormalizer.normalize_query`. -/
structure NormResult where
  original_query : Str
  extracted_entities : Extracted
  normalized_entities : Normalized
  normalization_hints : Str
deriving DecidableEq

/-- `QueryNormalizer.normalize_query`: extract, normalize, build hints. -/
def normalize_query (pset : List Str → List Str) (scorer : Scorer)
    (fetch : Option DbContext) (user_query : Str) : NormResult :=
  let extracted := extract_entities pset fetch user_query
  let normalized := normalize_all pset scorer fetch extracted
  { original_query := user_query
    extracted_entities := extracted
    normalized_entities := normalized
    normalization_hints := build_hints extracted normalized }

/-- A result row: column-name → value pairs, in column order. -/
abbrev Row := List (Str × Str)

/-- The response dictionary of `QueryProcessor.process_query`.  On the failure
path the source puts literal empty dicts into `extracted_entities` and
`normalized_entities`; `none` models those, `some` the populated structures
of the success path. -/
structure Response where
  success : Bool
  original_query : Str
  extracted_entities : Option Extracted
  normalized_entities : Option Normalized
  generated_sql : Option Str
  results : List Row
  results_count : Nat
  execution_time_ms : Nat
  total_time_ms : Nat
  error_message : Option Str
deriving DecidableEq

def msgGenFailed : Str := "Failed to generate SQL query".toList

def msgInvalidSql : Str := "Generated SQL is invalid".toList

def msgExecFailed : Str := "SQL execution failed".toList

/-- `QueryProcessor._failed_response`. -/
def failed_response (user_query : Str) (error_message : Str) : Response :=
  { success := false
    original_query := user_query
    extracted_entities := none
    normalized_entities := none
    generated_sql := none
    results := []
    results_count := 0
    execution_time_ms := 0
    total_time_ms := 0
    error_message := some error_message }

/-- `QueryProcessor.process_query`.  External collaborators are parameters:
`gen` the generation oracle, `validate` the outcome of the `EXPLAIN` dry run,
`ex` the execution outcome (`none` rows = execution error) paired with its
measured elapsed milliseconds, and `wallTotal` the wall-clock total measured
on the success path (the failure shape hard-codes zero). -/
def process_query (pset : List Str → List Str) (scorer : Scorer)
    (fetch : Option DbContext) (gen : Nat → GenOutcome) (validate : Str → Bool)
    (ex : Str → Option (List Row) × Nat) (wallTotal : Nat) (user_query : Str) : Response :=
  let nr := normalize_query pset scorer fetch user_query
  match generate_sql gen 0 with
  | none => failed_response user_query msgGenFailed
  | some sql =>
    if validate sql = false then failed_response user_query msgInvalidSql
    else
      match ex sql with
      | (none, _) => failed_response user_query msgExecFailed
      | (some results, execMs) =>
        { success := true
          original_query := user_query
          extracted_entities := some nr.extracted_entities
          normalized_entities := some nr.normalized_entities
          generated_sql := some sql
          results := results
          results_count := results.length
          execution_time_ms := execMs
          total_time_ms := wallTotal
          error_message := none }

/-! ## Helper lemmas -/

lemma toLower_idem (c : Char) : Char.toLower (Char.toLower c) = Char.toLower c := by
  unfold Char.toLower
  by_cases h : c.toNat ≥ 65 ∧ c.toNat ≤ 90
  · rw [if_pos h]
    obtain ⟨h1, h2⟩ := h
    generalize c.toNat = n at h1 h2
    interval_cases n <;> decide
  · rw [if_neg h, if_neg h]

lemma toLowerS_idem (s : Str) : toLowerS (toLowerS s) = toLowerS s := by
  simp only [toLowerS, List.map_map]
  exact List.map_congr_left (fun c _ => toLower_idem c)

lemma psetOK_dedup : PySetOK psetDedup := by
  intro xs
  exact ⟨List.nodup_dedup xs, fun a => List.mem_dedup⟩

lemma psetOK_rev : PySetOK psetRev := by
  intro xs
  refine ⟨List.nodup_reverse.mpr (List.nodup_dedup xs), fun a => ?_⟩
  rw [psetRev, List.mem_reverse]
  exact List.mem_dedup

lemma pset_nil (pset : List Str → List Str) (h : PySetOK pset) : pset [] = [] := by
  rw [List.eq_nil_iff_forall_not_mem]
  intro a ha
  exact absurd (((h []).2 a).mp ha) (List.not_mem_nil a)

lemma pset_singleton (pset : List Str → List Str) (h : PySetOK pset) (a : Str) :
    pset [a] = [a] := by
  obtain ⟨hnd, hm⟩ := h [a]
  have ha : a ∈ pset [a] := (hm a).mpr (List.mem_singleton_self a)
  have hall : ∀ x ∈ pset [a], x = a := fun x hx => List.mem_singleton.mp ((hm x).mp hx)
  match hps : pset [a] with
  | [] => rw [hps] at ha; exact absurd ha (List.not_mem_nil a)
  | [x] => rw [hps] at hall; rw [hall x (List.mem_singleton_self x)]
  | x :: y :: rest =>
    rw [hps] at hnd hall
    have hx := hall x (List.mem_cons_self x (y :: rest))
    have hy := hall y (List.mem_cons_of_mem x (List.mem_cons_self y rest))
    rw [List.nodup_cons] at hnd
    apply absurd _ hnd.1
    rw [hx, ← hy]
    exact List.mem_cons_self y rest

lemma length_dropWhile_le (p : Char → Bool) (l : Str) :
    (l.dropWhile p).length ≤ l.length := by
  induction l with
  | nil => simp
  | cons c rest ih =>
    rw [List.dropWhile_cons]
    split
    · exact Nat.le_succ_of_le ih
    · simp

lemma length_pyStrip_le (s : Str) : (pyStrip s).length ≤ s.length := by
  rw [pyStrip]
  calc (((s.dropWhile Char.isWhitespace).reverse.dropWhile Char.isWhitespace).reverse).length
      = ((s.dropWhile Char.isWhitespace).reverse.dropWhile Char.isWhitespace).length :=
        List.length_reverse _
    _ ≤ (s.dropWhile Char.isWhitespace).reverse.length := length_dropWhile_le _ _
    _ = (s.dropWhile Char.isWhitespace).length := List.length_reverse _
    _ ≤ s.length := length_dropWhile_le _ _

lemma length_pyReplaceGo_le (pat : Str) :
    ∀ fuel s, (pyReplaceGo pat [] fuel s).length ≤ s.length := by
  intro fuel
  induction fuel with
  | zero =>
    intro s
    simp only [pyReplaceGo]
    exact Nat.le_refl _
  | succ n ih =>
    intro s
    match s with
    | [] =>
      simp only [pyReplaceGo]
      exact Nat.le_refl _
    | c :: rest =>
      simp only [pyReplaceGo]
      split
      · calc ([] ++ pyReplaceGo pat [] n ((c :: rest).drop pat.length)).length
            = (pyReplaceGo pat [] n ((c :: rest).drop pat.length)).length := by
              rw [List.nil_append]
          _ ≤ ((c :: rest).drop pat.length).length := ih _
          _ ≤ (c :: rest).length := by rw [List.length_drop]; omega
      · calc (c :: pyReplaceGo pat [] n rest).length
            = (pyReplaceGo pat [] n rest).length + 1 := by rw [List.length_cons]
          _ ≤ rest.length + 1 := Nat.succ_le_succ (ih rest)
          _ = (c :: rest).length := by rw [List.length_cons]

lemma length_pyReplace_le (s pat : Str) : (pyReplace s pat []).length ≤ s.length :=
  length_pyReplaceGo_le pat s.length s

lemma length_cleanSql_le (s : Str) : (cleanSql s).length ≤ s.length := by
  rw [cleanSql]
  exact le_trans (length_pyStrip_le _) (le_trans (length_pyReplace_le _ _)
    (le_trans (length_pyReplace_le _ _) (length_pyStrip_le s)))

lemma gsql_raises (gen : Nat → GenOutcome) (rc rem : Nat)
    (h : gen rc = GenOutcome.raises) :
    generate_sqlGo gen rc (rem + 1) =
      ((generate_sqlGo gen (rc + 1) rem).1, (generate_sqlGo gen (rc + 1) rem).2 + 1) := by
  simp only [generate_sqlGo, h]

lemma gsql_short (gen : Nat → GenOutcome) (rc rem : Nat) (t : Str)
    (hg : gen rc = GenOutcome.returns t) (hlen : (cleanSql t).length < 10) :
    generate_sqlGo gen rc (rem + 1) =
      ((generate_sqlGo gen (rc + 1) rem).1, (generate_sqlGo gen (rc + 1) rem).2 + 1) := by
  simp only [generate_sqlGo, hg]
  rw [if_pos (Or.inr hlen)]

lemma gsql_ok (gen : Nat → GenOutcome) (rc rem : Nat) (t : Str)
    (hg : gen rc = GenOutcome.returns t)
    (hne : ¬(cleanSql t = [] ∨ (cleanSql t).length < 10))
    (hsel : containsSelect (cleanSql t) = true) :
    generate_sqlGo gen rc (rem + 1) = (some (cleanSql t), 1) := by
  simp only [generate_sqlGo, hg]
  rw [if_neg hne, if_neg (by simp [hsel])]

lemma abbrev_table_keys : ∀ p ∈ INSTITUTE_ABBREVIATIONS,
    toLowerS p.1 = p.1 ∧ INSTITUTE_ABBREVIATIONS.lookup p.1 = some p.2 := by decide

lemma dictGetLast_self (db : List Str) (hnd : (db.map toLowerS).Nodup)
    (v : Str) (hv : v ∈ db) (d : Str) : dictGetLast db (toLowerS v) d = v := by
  rw [dictGetLast]
  have hex : ∃ x ∈ db.reverse, (toLowerS x == toLowerS v) = true :=
    ⟨v, List.mem_reverse.mpr hv, by simp⟩
  obtain ⟨w, hw⟩ := Option.isSome_iff_exists.mp (List.find?_isSome.mpr hex)
  rw [hw]
  show w = v
  have hwp := List.find?_some hw
  have hwm : w ∈ db := List.mem_reverse.mp (List.mem_of_find?_eq_some hw)
  exact List.inj_on_of_nodup_map hnd hwm hv (by simpa using hwp)

lemma dictGetLast_mem (db : List Str) (u : Str) (hu : u ∈ db) (d : Str) :
    dictGetLast db (toLowerS u) d ∈ db := by
  rw [dictGetLast]
  have hex : ∃ x ∈ db.reverse, (toLowerS x == toLowerS u) = true :=
    ⟨u, List.mem_reverse.mpr hu, by simp⟩
  obtain ⟨w, hw⟩ := Option.isSome_iff_exists.mp (List.find?_isSome.mpr hex)
  rw [hw]
  show w ∈ db
  exact List.mem_reverse.mp (List.mem_of_find?_eq_some hw)

/-- Falsiness of a normalization-map entry: key absent or empty dict. -/
def optFalsy (o : Option (List (Str × List Str))) : Prop := o = none ∨ o = some []

lemma catHints_falsy (t : Str) (o : Option (List (Str × List Str)))
    (h : optFalsy o) : catHints t o = [] := by
  rcases h with h | h <;> subst h <;> simp [catHints]

lemma upsert_ne_nil (m : List (Str × List Str)) (k : Str) (v : List Str) :
    upsert m k v ≠ [] := by
  rw [upsert]
  split
  · rename_i hs
    intro hc
    rw [List.map_eq_nil_iff] at hc
    subst hc
    simp [List.lookup] at hs
  · intro hc
    simp at hc

lemma foldl_upsert_ne_nil : ∀ (ys : List Nat) (m : List (Str × List Str)),
    m ≠ [] ∨ ys ≠ [] →
    (ys.foldl (fun acc y => upsert acc (natStr y) [natStr y]) m) ≠ [] := by
  intro ys
  induction ys with
  | nil =>
    intro m h
    simp only [List.foldl_nil]
    exact h.resolve_right (fun hc => hc rfl)
  | cons y rest ih =>
    intro m _
    rw [List.foldl_cons]
    exact ih (upsert m (natStr y) [natStr y]) (Or.inl (upsert_ne_nil _ _ _))

/-! ## Claim theorems -/

/-- C3: if the generation capability always returns text shorter than 10
characters (failing shape validation on every call, since the post-processing
only removes characters), `generate_sql` returns the Failure signal `none`
after exactly `MAX_RETRIES` = 3 generation attempts and makes no further
attempt.  (The embedding is total, mirroring that the component lets no
exception escape.) -/
theorem synthesis_exhaustion (gen : Nat → GenOutcome)
    (h : ∀ n, ∃ s, gen n = GenOutcome.returns s ∧ s.length < 10) :
    generate_sql gen 0 = none ∧ (generate_sqlR gen 0).2 = MAX_RETRIES := by
  obtain ⟨s0, hg0, hl0⟩ := h 0
  obtain ⟨s1, hg1, hl1⟩ := h 1
  obtain ⟨s2, hg2, hl2⟩ := h 2
  have hc0 : (cleanSql s0).length < 10 := lt_of_le_of_lt (length_cleanSql_le s0) hl0
  have hc1 : (cleanSql s1).length < 10 := lt_of_le_of_lt (length_cleanSql_le s1) hl1
  have hc2 : (cleanSql s2).length < 10 := lt_of_le_of_lt (length_cleanSql_le s2) hl2
  have e0 : generate_sqlGo gen 0 3 =
      ((generate_sqlGo gen 1 2).1, (generate_sqlGo gen 1 2).2 + 1) :=
    gsql_short gen 0 2 s0 hg0 hc0
  have e1 : generate_sqlGo gen 1 2 =
      ((generate_sqlGo gen 2 1).1, (generate_sqlGo gen 2 1).2 + 1) :=
    gsql_short gen 1 1 s1 hg1 hc1
  have e2 : generate_sqlGo gen 2 1 =
      ((generate_sqlGo gen 3 0).1, (generate_sqlGo gen 3 0).2 + 1) :=
    gsql_short gen 2 0 s2 hg2 hc2
  have e3 : generate_sqlGo gen 3 0 = (none, 0) := rfl
  constructor
  · show (generate_sqlGo gen 0 (MAX_RETRIES - 0)).1 = none
    rw [show MAX_RETRIES - 0 = 3 from rfl, e0, e1, e2, e3]
  · show (generate_sqlGo gen 0 (MAX_RETRIES - 0)).2 = MAX_RETRIES
    rw [show MAX_RETRIES - 0 = 3 from rfl, e0, e1, e2, e3]
    rfl

/-- C3 witness: a concrete always-short oracle satisfies the hypothesis and
the conclusion. -/
theorem synthesis_exhaustion_witness :
    (∀ n : Nat, ∃ s : Str,
      (fun _ : Nat => GenOutcome.returns ("short".toList)) n = GenOutcome.returns s
      ∧ s.length < 10)
    ∧ generate_sql (fun _ : Nat => GenOutcome.returns ("short".toList)) 0 = none
    ∧ (generate_sqlR (fun _ : Nat => GenOutcome.returns ("short".toList)) 0).2 = MAX_RETRIES := by
  have h : ∀ n : Nat, ∃ s : Str,
      (fun _ : Nat => GenOutcome.returns ("short".toList)) n = GenOutcome.returns s
      ∧ s.length < 10 :=
    fun _ => ⟨"short".toList, rfl, by decide⟩
  exact ⟨h, (synthesis_exhaustion _ h).1, (synthesis_exhaustion _ h).2⟩

/-- Generation oracle for the C6 counterexample: raises twice, then returns
text that passes the claim's literal shape validation while its
post-processed form does not. -/
def genCexC6 : Nat → GenOutcome :=
  fun n => if n = 2 then GenOutcome.returns ("SELECT```sql".toList) else GenOutcome.raises

/-- C6 counterexample: the third call's text is non-empty, has length ≥ 10
and contains a case-insensitive SELECT token, yet `generate_sql` does not
return it: the code applies shape validation to the post-processed text, and
here fence stripping shrinks the text below 10 characters, so every retry
fails and the result is `none` after 3 attempts. -/
theorem synthesis_retry_cex :
    genCexC6 0 = GenOutcome.raises ∧ genCexC6 1 = GenOutcome.raises
    ∧ genCexC6 2 = GenOutcome.returns ("SELECT```sql".toList)
    ∧ ("SELECT```sql".toList ≠ ([] : Str))
    ∧ 10 ≤ ("SELECT```sql".toList : Str).length
    ∧ containsSelect ("SELECT```sql".toList) = true
    ∧ generate_sql genCexC6 0 = none
    ∧ (generate_sqlR genCexC6 0).2 = 3 := by decide

/-- C6 (amended): if the generation capability raises on the first two calls
and the third call's text passes shape validation after the code's
post-processing (fence stripping and trimming), then `generate_sql` returns
the third call's post-processed text and the total attempt count is 3. -/
theorem synthesis_retry_amended (gen : Nat → GenOutcome) (t : Str)
    (h0 : gen 0 = GenOutcome.raises) (h1 : gen 1 = GenOutcome.raises)
    (h2 : gen 2 = GenOutcome.returns t)
    (hshape : ¬(cleanSql t = [] ∨ (cleanSql t).length < 10))
    (hsel : containsSelect (cleanSql t) = true) :
    generate_sqlR gen 0 = (some (cleanSql t), 3) := by
  have e0 : generate_sqlGo gen 0 3 =
      ((generate_sqlGo gen 1 2).1, (generate_sqlGo gen 1 2).2 + 1) :=
    gsql_raises gen 0 2 h0
  have e1 : generate_sqlGo gen 1 2 =
      ((generate_sqlGo gen 2 1).1, (generate_sqlGo gen 2 1).2 + 1) :=
    gsql_raises gen 1 1 h1
  have e2 : generate_sqlGo gen 2 1 = (some (cleanSql t), 1) :=
    gsql_ok gen 2 0 t h2 hshape hsel
  show generate_sqlGo gen 0 (MAX_RETRIES - 0) = (some (cleanSql t), 3)
  rw [show MAX_RETRIES - 0 = 3 from rfl, e0, e1, e2]

/-- Generation oracle for the C6 witness. -/
def genWitC6 : Nat → GenOutcome :=
  fun n => if n = 2 then GenOutcome.returns ("SELECT * FROM members".toList) else GenOutcome.raises

/-- C6 witness: concrete instance of the amended retry property. -/
theorem synthesis_retry_amended_witness :
    genWitC6 0 = GenOutcome.raises ∧ genWitC6 1 = GenOutcome.raises
    ∧ genWitC6 2 = GenOutcome.returns ("SELECT * FROM members".toList)
    ∧ ¬(cleanSql ("SELECT * FROM members".toList) = []
        ∨ (cleanSql ("SELECT * FROM members".toList)).length < 10)
    ∧ containsSelect (cleanSql ("SELECT * FROM members".toList)) = true
    ∧ generate_sqlR genWitC6 0 = (some (cleanSql ("SELECT * FROM members".toList)), 3) :=
  ⟨rfl, rfl, rfl, by decide, by decide,
    synthesis_retry_amended genWitC6 ("SELECT * FROM members".toList) rfl rfl rfl
      (by decide) (by decide)⟩

/-- C1: whenever a pipeline stage fails — SQL generation exhausted,
validation rejected, or execution failed — `process_query` returns a response
with `success = false`, `results_count = 0`, `results = []` and a non-null
`error_message` equal to one of the three defined messages. -/
theorem processor_failure_shape (pset : List Str → List Str) (scorer : Scorer)
    (fetch : Option DbContext) (gen : Nat → GenOutcome) (validate : Str → Bool)
    (ex : Str → Option (List Row) × Nat) (wallTotal : Nat) (q : Str)
    (h : generate_sql gen 0 = none
       ∨ (∃ sql, generate_sql gen 0 = some sql ∧ validate sql = false)
       ∨ (∃ sql, generate_sql gen 0 = some sql ∧ validate sql = true ∧ (ex sql).1 = none)) :
    (process_query pset scorer fetch gen validate ex wallTotal q).success = false
    ∧ (process_query pset scorer fetch gen validate ex wallTotal q).results_count = 0
    ∧ (process_query pset scorer fetch gen validate ex wallTotal q).results = []
    ∧ ((process_query pset scorer fetch gen validate ex wallTotal q).error_message = some msgGenFailed
       ∨ (process_query pset scorer fetch gen validate ex wallTotal q).error_message = some msgInvalidSql
       ∨ (process_query pset scorer fetch gen validate ex wallTotal q).error_message = some msgExecFailed) := by
  rcases h with hg | ⟨sql, hg, hv⟩ | ⟨sql, hg, hv, hx⟩
  · simp [process_query, hg, failed_response]
  · simp [process_query, hg, hv, failed_response]
  · rcases hex : ex sql with ⟨o, t⟩
    rw [hex] at hx
    simp only at hx
    subst hx
    simp [process_query, hg, hv, hex, failed_response]

/-- C1 witness: generation exhaustion (an always-raising oracle) produces the
failure shape concretely. -/
theorem processor_failure_shape_witness :
    generate_sql (fun _ : Nat => GenOutcome.raises) 0 = none
    ∧ (process_query psetDedup (fun _ _ => 0) none (fun _ : Nat => GenOutcome.raises)
        (fun _ => true) (fun _ => (some [], 5)) 7 ("q".toList)).success = false
    ∧ (process_query psetDedup (fun _ _ => 0) none (fun _ : Nat => GenOutcome.raises)
        (fun _ => true) (fun _ => (some [], 5)) 7 ("q".toList)).results_count = 0
    ∧ (process_query psetDedup (fun _ _ => 0) none (fun _ : Nat => GenOutcome.raises)
        (fun _ => true) (fun _ => (some [], 5)) 7 ("q".toList)).results = []
    ∧ ((process_query psetDedup (fun _ _ => 0) none (fun _ : Nat => GenOutcome.raises)
        (fun _ => true) (fun _ => (some [], 5)) 7 ("q".toList)).error_message = some msgGenFailed
      ∨ (process_query psetDedup (fun _ _ => 0) none (fun _ : Nat => GenOutcome.raises)
        (fun _ => true) (fun _ => (some [], 5)) 7 ("q".toList)).error_message = some msgInvalidSql
      ∨ (process_query psetDedup (fun _ _ => 0) none (fun _ : Nat => GenOutcome.raises)
        (fun _ => true) (fun _ => (some [], 5)) 7 ("q".toList)).error_message = some msgExecFailed) := by
  have h := processor_failure_shape psetDedup (fun _ _ => 0) none
    (fun _ : Nat => GenOutcome.raises) (fun _ => true) (fun _ => (some [], 5)) 7
    ("q".toList) (Or.inl (by decide))
  exact ⟨by decide, h.1, h.2.1, h.2.2.1, h.2.2.2⟩

/-- C9: when validation or execution fails, the response hard-codes
`generated_sql = none`, zero execution and total times, and empty extracted /
normalized entity maps — although the generated SQL text (and on the
execution path the measured elapsed time) exist at that point; they are
passed only to the logger. -/
theorem failed_response_fields (pset : List Str → List Str) (scorer : Scorer)
    (fetch : Option DbContext) (gen : Nat → GenOutcome) (validate : Str → Bool)
    (ex : Str → Option (List Row) × Nat) (wallTotal : Nat) (q : Str) (sql : Str)
    (hg : generate_sql gen 0 = some sql)
    (h : validate sql = false ∨ (validate sql = true ∧ (ex sql).1 = none)) :
    (process_query pset scorer fetch gen validate ex wallTotal q).success = false
    ∧ (process_query pset scorer fetch gen validate ex wallTotal q).generated_sql = none
    ∧ (process_query pset scorer fetch gen validate ex wallTotal q).execution_time_ms = 0
    ∧ (process_query pset scorer fetch gen validate ex wallTotal q).total_time_ms = 0
    ∧ (process_query pset scorer fetch gen validate ex wallTotal q).extracted_entities = none
    ∧ (process_query pset scorer fetch gen validate ex wallTotal q).normalized_entities = none := by
  rcases h with hv | ⟨hv, hx⟩
  · simp [process_query, hg, hv, failed_response]
  · rcases hex : ex sql with ⟨o, t⟩
    rw [hex] at hx
    simp only at hx
    subst hx
    simp [process_query, hg, hv, hex, failed_response]

/-- C9 witness: a concretely failing validator exhibits the hypothesis and
the field values. -/
theorem failed_response_fields_witness :
    generate_sql (fun _ : Nat => GenOutcome.returns ("SELECT * FROM members".toList)) 0
      = some ("SELECT * FROM members".toList)
    ∧ (process_query psetDedup (fun _ _ => 0) none
        (fun _ : Nat => GenOutcome.returns ("SELECT * FROM members".toList))
        (fun _ => false) (fun _ => (some [], 5)) 7 ("q".toList)).generated_sql = none
    ∧ (process_query psetDedup (fun _ _ => 0) none
        (fun _ : Nat => GenOutcome.returns ("SELECT * FROM members".toList))
        (fun _ => false) (fun _ => (some [], 5)) 7 ("q".toList)).execution_time_ms = 0
    ∧ (process_query psetDedup (fun _ _ => 0) none
        (fun _ : Nat => GenOutcome.returns ("SELECT * FROM members".toList))
        (fun _ => false) (fun _ => (some [], 5)) 7 ("q".toList)).total_time_ms = 0
    ∧ (process_query psetDedup (fun _ _ => 0) none
        (fun _ : Nat => GenOutcome.returns ("SELECT * FROM members".toList))
        (fun _ => false) (fun _ => (some [], 5)) 7 ("q".toList)).extracted_entities = none
    ∧ (process_query psetDedup (fun _ _ => 0) none
        (fun _ : Nat => GenOutcome.returns ("SELECT * FROM members".toList))
        (fun _ => false) (fun _ => (some [], 5)) 7 ("q".toList)).normalized_entities = none := by
  have h := failed_response_fields psetDedup (fun _ _ => 0) none
    (fun _ : Nat => GenOutcome.returns ("SELECT * FROM members".toList))
    (fun _ => false) (fun _ => (some [], 5)) 7 ("q".toList)
    ("SELECT * FROM members".toList) (by decide) (Or.inl rfl)
  exact ⟨by decide, h.2.1, h.2.2.1, h.2.2.2.1, h.2.2.2.2.1, h.2.2.2.2.2⟩

/-- C2: for every key of the abbreviation table, normalizing the institute
input list `[k]` yields exactly `{k: [canonical mapped value]}` — a singleton
candidate list holding only the canonical institute name — for every
vocabulary, scorer and admissible set order (no fuzzy matching happens and no
fuzzy candidate is appended). -/
theorem abbrev_singleton_candidates (pset : List Str → List Str) (scorer : Scorer)
    (db : List Str) (hps : PySetOK pset) (k v : Str)
    (hk : (k, v) ∈ INSTITUTE_ABBREVIATIONS) :
    normalize_institutes pset scorer db [k] = [(k, [v])] := by
  have hf := abbrev_table_keys (k, v) hk
  rw [normalize_institutes, List.foldl_cons, List.foldl_nil]
  rw [show toLowerS k = k from hf.1, hf.2]
  show upsert [] k (pset [v]) = [(k, [v])]
  rw [pset_singleton pset hps v]
  rfl

/-- C2 witness: the key `mit` maps to its singleton canonical value. -/
theorem abbrev_singleton_candidates_witness :
    PySetOK psetDedup
    ∧ (("mit".toList, "Massachusetts Institute of Technology".toList) ∈ INSTITUTE_ABBREVIATIONS)
    ∧ normalize_institutes psetDedup (fun _ _ => 0) [] [("mit".toList)]
        = [(("mit".toList), [("Massachusetts Institute of Technology".toList)])] :=
  ⟨psetOK_dedup, by decide,
    abbrev_singleton_candidates psetDedup (fun _ _ => 0) [] psetOK_dedup _ _ (by decide)⟩

/-- C7: year extraction is order-preserving and non-deduplicating — the text
`"2015 ... 2015"` yields `years = [2015, 2015]` — and in general the years
field is the word-bounded 19xx/20xx scan converted to integers, while every
other category of the extraction result is duplicate-free. -/
theorem year_extraction_nondedup (pset : List Str → List Str)
    (fetch : Option DbContext) (hps : PySetOK pset) :
    (extract_entities pset fetch ("2015 ... 2015".toList)).years = [2015, 2015]
    ∧ ∀ q : Str,
        (extract_entities pset fetch q).years = (findYears false q).map strToNat
        ∧ (extract_entities pset fetch q).companies.Nodup
        ∧ (extract_entities pset fetch q).roles.Nodup
        ∧ (extract_entities pset fetch q).cities.Nodup
        ∧ (extract_entities pset fetch q).states.Nodup
        ∧ (extract_entities pset fetch q).countries.Nodup
        ∧ (extract_entities pset fetch q).institutes.Nodup
        ∧ (extract_entities pset fetch q).degrees.Nodup
        ∧ (extract_entities pset fetch q).domains.Nodup := by
  constructor
  · show (findYears false ("2015 ... 2015".toList)).map strToNat = [2015, 2015]
    decide
  · intro q
    exact ⟨rfl, (hps _).1, (hps _).1, (hps _).1, (hps _).1, (hps _).1, (hps _).1,
      (hps _).1, (hps _).1⟩

/-- C7 witness: a concrete admissible set order exercises the hypothesis. -/
theorem year_extraction_nondedup_witness :
    PySetOK psetDedup
    ∧ (extract_entities psetDedup none ("2015 ... 2015".toList)).years = [2015, 2015] :=
  ⟨psetOK_dedup, (year_extraction_nondedup psetDedup none psetOK_dedup).1⟩

/-- C8: if vocabulary retrieval fails (`fetch = none`), extraction degrades
to the empty vocabulary context instead of failing: the result equals the
result on an explicitly empty context, the seven vocabulary-only categories
are empty, institutes hold only abbreviation keys occurring as substrings of
the lower-cased query, and years are scanned as usual.  (The embedding is
total: extraction does not raise.) -/
theorem vocab_failure_degrades (pset : List Str → List Str) (hps : PySetOK pset)
    (q : Str) :
    extract_entities pset none q = extract_entities pset (some emptyContext) q
    ∧ (extract_entities pset none q).companies = []
    ∧ (extract_entities pset none q).roles = []
    ∧ (extract_entities pset none q).cities = []
    ∧ (extract_entities pset none q).states = []
    ∧ (extract_entities pset none q).countries = []
    ∧ (extract_entities pset none q).degrees = []
    ∧ (extract_entities pset none q).domains = []
    ∧ (∀ x ∈ (extract_entities pset none q).institutes,
        x ∈ INSTITUTE_ABBREVIATIONS.map Prod.fst ∧ containsSub x (toLowerS q) = true)
    ∧ (extract_entities pset none q).years = (findYears false q).map strToNat := by
  have hnil : pset (pickVocab (toLowerS q) []) = [] := pset_nil pset hps
  refine ⟨rfl, hnil, hnil, hnil, hnil, hnil, hnil, hnil, ?_, rfl⟩
  intro x hx
  have hx2 : x ∈ ((INSTITUTE_ABBREVIATIONS.map Prod.fst).filter
      (fun a => containsSub a (toLowerS q))) ++ pickVocab (toLowerS q) [] :=
    ((hps _).2 x).mp hx
  rw [show pickVocab (toLowerS q) [] = ([] : List Str) from rfl, List.append_nil] at hx2
  have hmf := List.mem_filter.mp hx2
  exact ⟨hmf.1, by simpa using hmf.2⟩

/-- C8 witness: a query holding an abbreviation key and a year, with a failed
vocabulary fetch. -/
theorem vocab_failure_degrades_witness :
    PySetOK psetDedup
    ∧ extract_entities psetDedup none ("iit b 1999".toList)
        = extract_entities psetDedup (some emptyContext) ("iit b 1999".toList)
    ∧ (extract_entities psetDedup none ("iit b 1999".toList)).companies = []
    ∧ (extract_entities psetDedup none ("iit b 1999".toList)).institutes = [("iit b".toList)]
    ∧ (extract_entities psetDedup none ("iit b 1999".toList)).years = [1999] :=
  ⟨psetOK_dedup, (vocab_failure_degrades psetDedup psetOK_dedup ("iit b 1999".toList)).1,
    (vocab_failure_degrades psetDedup psetOK_dedup ("iit b 1999".toList)).2.1,
    by decide, by decide⟩

/-- C10: for every query whose only surviving entities are years (all eight
string categories falsy after normalization, extracted years non-empty),
`normalize_query` reports the sentinel "No entities found" although the
extracted and normalized structures are non-empty — the hint builder iterates
only the eight string categories and ignores years entirely. -/
theorem hints_ignore_years (pset : List Str → List Str) (scorer : Scorer)
    (fetch : Option DbContext) (q : Str)
    (hy : (normalize_query pset scorer fetch q).extracted_entities.years ≠ [])
    (hc1 : optFalsy (normalize_query pset scorer fetch q).normalized_entities.companies)
    (hc2 : optFalsy (normalize_query pset scorer fetch q).normalized_entities.roles)
    (hc3 : optFalsy (normalize_query pset scorer fetch q).normalized_entities.cities)
    (hc4 : optFalsy (normalize_query pset scorer fetch q).normalized_entities.states)
    (hc5 : optFalsy (normalize_query pset scorer fetch q).normalized_entities.countries)
    (hc6 : optFalsy (normalize_query pset scorer fetch q).normalized_entities.institutes)
    (hc7 : optFalsy (normalize_query pset scorer fetch q).normalized_entities.degrees)
    (hc8 : optFalsy (normalize_query pset scorer fetch q).normalized_entities.domains) :
    (normalize_query pset scorer fetch q).normalization_hints = ("No entities found".toList)
    ∧ ∃ m, (normalize_query pset scorer fetch q).normalized_entities.years = some m
        ∧ m ≠ [] := by
  simp only [normalize_query] at hy hc1 hc2 hc3 hc4 hc5 hc6 hc7 hc8 ⊢
  constructor
  · rw [build_hints]
    rw [catHints_falsy _ _ hc1, catHints_falsy _ _ hc2, catHints_falsy _ _ hc3,
        catHints_falsy _ _ hc4, catHints_falsy _ _ hc5, catHints_falsy _ _ hc6,
        catHints_falsy _ _ hc7, catHints_falsy _ _ hc8]
    rfl
  · refine ⟨(extract_entities pset fetch q).years.foldl
      (fun m y => upsert m (natStr y) [natStr y]) [], ?_, ?_⟩
    · show (normalize_all pset scorer fetch (extract_entities pset fetch q)).years = _
      simp only [normalize_all]
      rw [if_pos hy]
    · exact foldl_upsert_ne_nil _ [] (Or.inr hy)

/-- C10 witness: the query "2015" extracts only a year; all eight string
categories are absent from the normalized map and the sentinel is reported. -/
theorem hints_ignore_years_witness :
    (normalize_query psetDedup (fun _ _ => 0) none ("2015".toList)).extracted_entities.years ≠ []
    ∧ optFalsy (normalize_query psetDedup (fun _ _ => 0) none ("2015".toList)).normalized_entities.companies
    ∧ (normalize_query psetDedup (fun _ _ => 0) none ("2015".toList)).normalization_hints
        = ("No entities found".toList)
    ∧ ∃ m, (normalize_query psetDedup (fun _ _ => 0) none ("2015".toList)).normalized_entities.years
        = some m ∧ m ≠ [] := by
  have h := hints_ignore_years psetDedup (fun _ _ => 0) none ("2015".toList)
    (by decide) (Or.inl (by decide)) (Or.inl (by decide)) (Or.inl (by decide))
    (Or.inl (by decide)) (Or.inl (by decide)) (Or.inl (by decide)) (Or.inl (by decide))
    (Or.inl (by decide))
  exact ⟨by decide, Or.inl (by decide), h.1, h.2⟩

/-- Constant scorer used in counterexamples and witnesses; 100 is the score
fuzzywuzzy's token_set_ratio actually assigns to the concrete pairs used
below (equal token sets, or one token set containing the other). -/
def scorer100 : Scorer := fun _ _ => 100

/-- C4 counterexample: (i) in the seven plain categories no deduplication is
applied to `[input] + fuzzy_matches` — normalizing the company `google`
against a vocabulary containing `google` yields the candidate list
`[google, google]`, which has a duplicate; (ii) for institutes the combined
list goes through `set()`, whose iteration order is hash-seed-dependent —
under the admissible set order `psetRev` the original input is not the first
element of the candidate list. -/
theorem candidate_first_cex :
    normalize_companies psetDedup scorer100 [("google".toList)] [("google".toList)]
      = [(("google".toList), [("google".toList), ("google".toList)])]
    ∧ ¬ ([("google".toList), ("google".toList)] : List Str).Nodup
    ∧ PySetOK psetRev
    ∧ normalize_institutes psetRev scorer100 [("Acme Corp".toList)] [("acme".toList)]
      = [(("acme".toList), [("Acme Corp".toList), ("acme".toList)])] :=
  ⟨by decide, by decide, psetOK_rev, by decide⟩

/-- C4 (amended): for an input that is not an abbreviation key and has at
least one fuzzy match, in the seven non-institute categories the candidate
list is exactly the original input followed by the fuzzy matches, with no
deduplication against the original; for institutes the stored list is the
set-deduplicated combination of the original and its fuzzy matches in
unspecified set order — the original is always a member, but not necessarily
the first element. -/
theorem candidate_first_amended (pset : List Str → List Str) (scorer : Scorer)
    (db : List Str) (hps : PySetOK pset) :
    (∀ c : Str, match_entity pset scorer c db ≠ [] →
      normalize_fuzzy pset scorer db [c] = [(c, c :: match_entity pset scorer c db)])
    ∧ (∀ i : Str, INSTITUTE_ABBREVIATIONS.lookup (toLowerS i) = none →
        match_entity pset scorer i db ≠ [] →
        ∃ l, normalize_institutes pset scorer db [i] = [(i, l)]
          ∧ l.Nodup ∧ i ∈ l
          ∧ ∀ x ∈ l, x = i ∨ x ∈ match_entity pset scorer i db) := by
  constructor
  · intro c hfm
    simp only [normalize_fuzzy, List.foldl_cons, List.foldl_nil]
    rw [if_neg hfm]
    rfl
  · intro i habb hfm
    refine ⟨pset (i :: match_entity pset scorer i db), ?_, (hps _).1, ?_, ?_⟩
    · simp only [normalize_institutes, List.foldl_cons, List.foldl_nil, habb]
      rw [if_neg hfm]
      rfl
    · exact ((hps _).2 i).mpr (List.mem_cons_self _ _)
    · intro x hx
      exact List.mem_cons.mp (((hps _).2 x).mp hx)

/-- C4 witness: concrete instances of both parts of the amended claim. -/
theorem candidate_first_amended_witness :
    PySetOK psetDedup
    ∧ match_entity psetDedup scorer100 ("google".toList) [("google".toList)] ≠ []
    ∧ normalize_fuzzy psetDedup scorer100 [("google".toList)] [("google".toList)]
        = [(("google".toList),
            ("google".toList) :: match_entity psetDedup scorer100 ("google".toList) [("google".toList)])]
    ∧ INSTITUTE_ABBREVIATIONS.lookup (toLowerS ("acme".toList)) = none
    ∧ match_entity psetDedup scorer100 ("acme".toList) [("Acme Corp".toList)] ≠ []
    ∧ ∃ l, normalize_institutes psetDedup scorer100 [("Acme Corp".toList)] [("acme".toList)]
          = [(("acme".toList), l)]
        ∧ l.Nodup ∧ ("acme".toList) ∈ l
        ∧ ∀ x ∈ l, x = ("acme".toList)
            ∨ x ∈ match_entity psetDedup scorer100 ("acme".toList) [("Acme Corp".toList)] := by
  refine ⟨psetOK_dedup, by decide, ?_, by decide, by decide, ?_⟩
  · exact (candidate_first_amended psetDedup scorer100 [("google".toList)] psetOK_dedup).1
      ("google".toList) (by decide)
  · exact (candidate_first_amended psetDedup scorer100 [("Acme Corp".toList)] psetOK_dedup).2
      ("acme".toList) (by decide) (by decide)

/-- Eleven-entry vocabulary for the C5 counterexample (under the scorer model
`scorer100` every entry scores 100 against the query, as fuzzywuzzy's
token_set_ratio does for the inputs this stands for). -/
def elevenVocab : List Str :=
  [("t0".toList), ("t1".toList), ("t2".toList), ("t3".toList), ("t4".toList),
   ("t5".toList), ("t6".toList), ("t7".toList), ("t8".toList), ("t9".toList),
   ("ta".toList)]

/-- Scorer for the order part of the C5 counterexample: 100 for `aa`, 80 for
everything else. -/
def scorerAB : Scorer := fun _ c => if c = ("aa".toList) then 100 else 80

/-- C5 counterexample: (i) `process.extract(..., limit=10)` truncates to the
ten best-ranked entries, so with eleven vocabulary entries all scoring 100
(≥ 75) `match_entity` omits one of them — it does not return all entries at
or above the threshold; (ii) the final `list(set(...))` destroys the
descending ranking order: under the admissible set order `psetRev` the result
lists the score-80 entry before the score-100 entry. -/
theorem match_entity_exact_cex :
    scorer100 (toLowerS ("q".toList)) (toLowerS ("ta".toList)) = 100
    ∧ ("ta".toList) ∈ elevenVocab
    ∧ ("ta".toList) ∉ match_entity psetDedup scorer100 ("q".toList) elevenVocab
    ∧ PySetOK psetRev
    ∧ scorerAB (toLowerS ("q".toList)) ("zz".toList) = 80
    ∧ scorerAB (toLowerS ("q".toList)) ("aa".toList) = 100
    ∧ match_entity psetRev scorerAB ("q".toList) [("zz".toList), ("aa".toList)]
        = [("zz".toList), ("aa".toList)] :=
  ⟨rfl, by decide, by decide, psetOK_rev, by decide, by decide, by decide⟩

/-- C5 (amended): `match_entity` returns, in unspecified set order and
duplicate-free, restored-casing vocabulary entries only (every element of the
result is an original vocabulary entry); and when the vocabulary has at most
10 entries (no truncation), all non-empty with distinct lower-cased forms, a
vocabulary entry is returned iff its similarity score is at or above the
threshold 75 — so a score of exactly 75 is included and 74 is excluded, and
all tying entries are kept. -/
theorem match_entity_amended (pset : List Str → List Str) (scorer : Scorer)
    (q : Str) (db : List Str) (hps : PySetOK pset) :
    ((match_entity pset scorer q db).Nodup
      ∧ ∀ v ∈ match_entity pset scorer q db, v ∈ db)
    ∧ (q ≠ [] → (∀ v ∈ db, v ≠ []) → (db.map toLowerS).Nodup → db.length ≤ 10 →
        ∀ v ∈ db, (v ∈ match_entity pset scorer q db
          ↔ SIMILARITY_THRESHOLD ≤ scorer (toLowerS q) (toLowerS v))) := by
  constructor
  · simp only [match_entity]
    split_ifs with h1 h2
    · exact ⟨List.nodup_nil, fun v hv => absurd hv (List.not_mem_nil v)⟩
    · exact ⟨List.nodup_nil, fun v hv => absurd hv (List.not_mem_nil v)⟩
    · refine ⟨(hps _).1, ?_⟩
      intro v hv
      have hv2 := ((hps _).2 v).mp hv
      obtain ⟨p, hpf, hpv⟩ := List.mem_map.mp hv2
      have hpmem := (List.mem_filter.mp hpf).1
      have hp3 := List.take_subset 10 _ hpmem
      have hp4 := (List.perm_insertionSort _ _).mem_iff.mp hp3
      rw [List.map_map] at hp4
      obtain ⟨u, hu, hup⟩ := List.mem_map.mp hp4
      rw [← hpv, ← hup]
      show dictGetLast (db.filter (fun w => !w.isEmpty)) (toLowerS (toLowerS u)) (toLowerS u) ∈ db
      rw [toLowerS_idem]
      exact List.mem_of_mem_filter (dictGetLast_mem _ u hu _)
  · intro hq hvne hnd hlen v hv
    have hdb : db ≠ [] := by
      intro hc; rw [hc] at hv; exact absurd hv (List.not_mem_nil v)
    have hguard : ¬(q = [] ∨ db = []) := by
      rintro (h | h)
      · exact hq h
      · exact hdb h
    have hfil : db.filter (fun w => !w.isEmpty) = db := by
      apply List.filter_eq_self.mpr
      intro a ha
      simpa using hvne a ha
    simp only [match_entity, if_neg hguard, hfil, if_neg hdb, List.map_map]
    have hslen : (List.insertionSort (fun p q : Str × Nat => q.2 ≤ p.2)
        (db.map ((fun c => (c, scorer (toLowerS q) c)) ∘ toLowerS))).length ≤ 10 := by
      rw [(List.perm_insertionSort _ _).length_eq, List.length_map]
      exact hlen
    rw [List.take_of_length_le hslen]
    rw [(hps _).2 v]
    constructor
    · intro hvm
      obtain ⟨p, hpf, hpv⟩ := List.mem_map.mp hvm
      obtain ⟨hpmem, hpth⟩ := List.mem_filter.mp hpf
      have hp4 : p ∈ db.map ((fun c => (c, scorer (toLowerS q) c)) ∘ toLowerS) :=
        (List.perm_insertionSort _ _).mem_iff.mp hpmem
      obtain ⟨u, hu, hup⟩ := List.mem_map.mp hp4
      have hval : dictGetLast db (toLowerS p.1) p.1 = u := by
        rw [← hup]
        show dictGetLast db (toLowerS (toLowerS u)) (toLowerS u) = u
        rw [toLowerS_idem]
        exact dictGetLast_self db hnd u hu _
      rw [← hpv, hval]
      have hple : SIMILARITY_THRESHOLD ≤ p.2 := by simpa using hpth
      rw [← hup] at hple
      exact hple
    · intro h75
      refine List.mem_map.mpr ⟨(toLowerS v, scorer (toLowerS q) (toLowerS v)), ?_, ?_⟩
      · refine List.mem_filter.mpr ⟨?_, by simpa using h75⟩
        exact (List.perm_insertionSort _ _).mem_iff.mpr
          (List.mem_map.mpr ⟨v, hv, rfl⟩)
      · show dictGetLast db (toLowerS (toLowerS v)) (toLowerS v) = v
        rw [toLowerS_idem]
        exact dictGetLast_self db hnd v hv _

/-- Scorer for the C5 witness, realizing the 75/74 threshold boundary. -/
def scorerBoundary : Scorer := fun _ c => if c = ("alpha".toList) then 75 else 74

/-- C5 witness: with a two-entry vocabulary and scores exactly 75 and 74, the
score-75 entry is returned (with restored casing) and the score-74 entry is
not. -/
theorem match_entity_amended_witness :
    PySetOK psetDedup
    ∧ ("q".toList ≠ ([] : Str))
    ∧ (∀ v ∈ [("Alpha".toList), ("Beta".toList)], v ≠ ([] : Str))
    ∧ (([("Alpha".toList), ("Beta".toList)] : List Str).map toLowerS).Nodup
    ∧ ([("Alpha".toList), ("Beta".toList)] : List Str).length ≤ 10
    ∧ (("Alpha".toList) ∈ match_entity psetDedup scorerBoundary ("q".toList)
          [("Alpha".toList), ("Beta".toList)]
        ↔ SIMILARITY_THRESHOLD ≤ scorerBoundary (toLowerS ("q".toList)) (toLowerS ("Alpha".toList)))
    ∧ ("Alpha".toList) ∈ match_entity psetDedup scorerBoundary ("q".toList)
        [("Alpha".toList), ("Beta".toList)]
    ∧ ("Beta".toList) ∉ match_entity psetDedup scorerBoundary ("q".toList)
        [("Alpha".toList), ("Beta".toList)] := by
  refine ⟨psetOK_dedup, by decide, by decide, by decide, by decide, ?_, by decide, by decide⟩
  exact (match_entity_amended psetDedup scorerBoundary ("q".toList)
    [("Alpha".toList), ("Beta".toList)] psetOK_dedup).2
    (by decide) (by decide) (by decide) (by decide) ("Alpha".toList) (by decide)
